import Mathlib

/-!
Shallow embedding of the DirKeeper MCP server (src/server.py): the account
status classifier, the search-filter builders, and the per-tool
connect / enumerate / collect / close pipelines, together with proofs about
the frozen behavioral claims.

Directory entries are modelled as association lists from attribute name to
value list; library calls that can raise are modelled as `Except String`
values supplied by an environment record, so each tool body is a total
function of its environment.
-/

namespace DirKeeper

/-- Result of the primary `acct.status()` call: the raw account state name
(after the duck-typed `.name` / `.value` extraction), the auxiliary
parameters (already made serializable), and the optional computation
timestamp (already converted to text). -/
structure StatusData where
  state_name : String
  params : List (String × String)
  calc_time : Option String
deriving Repr, DecidableEq

/-- The `AccountStatus` record built by `_get_user_status`. -/
structure AccountStatus where
  simple_status : String
  detailed_status : String
  status_params : List (String × String)
  calc_time : Option String
deriving Repr, DecidableEq

/-- Environment for one `_get_user_status` call: the outcome of the primary
`acct.status()` path, and the outcome of the fallback
`accounts.get(dn).get_all_attrs()` path (each may raise, modelled as
`.error` carrying the exception text). -/
structure StatusQueryEnv where
  primary : Except String StatusData
  fallbackAttrs : Except String (List (String × List String))
deriving Repr

/-- The `if/elif/else` chain of `_get_user_status` mapping a raw state name
to the simplified status (src/server.py lines 126-133). -/
def simpleStatusOfState (state_name : String) : String :=
  if state_name = "DIRECTLY_LOCKED" ∨ state_name = "INDIRECTLY_LOCKED" then "locked"
  else if state_name = "INACTIVITY_LIMIT_EXCEEDED" then "inactive"
  else if state_name = "ACTIVATED" then "active"
  else "unknown"

/-- Dictionary lookup on an attribute map (`attrs[key]` presence check). -/
def lookupAttr (attrs : List (String × List String)) (k : String) : Option (List String) :=
  (attrs.find? (fun p => p.1 = k)).map (fun p => p.2)

/-- The fallback lock test of `_get_user_status` (line 150):
`'nsAccountLock' in attrs and attrs['nsAccountLock'] and
attrs['nsAccountLock'][0].lower() == 'true'`. -/
def nsAccountLockTrue (attrs : List (String × List String)) : Bool :=
  match lookupAttr attrs "nsAccountLock" with
  | some (v :: _) => v.toLower = "true"
  | _ => false

/-- `_get_user_status` (src/server.py lines 97-171): primary path maps the
raw state name; on a primary exception the fallback probes `nsAccountLock`;
on a second exception it returns `unknown` with the primary error text. -/
def getUserStatus (env : StatusQueryEnv) : AccountStatus :=
  match env.primary with
  | .ok sd =>
      { simple_status := simpleStatusOfState sd.state_name
        detailed_status := sd.state_name
        status_params := sd.params
        calc_time := sd.calc_time }
  | .error e =>
      match env.fallbackAttrs with
      | .ok attrs =>
          if nsAccountLockTrue attrs then
            { simple_status := "locked", detailed_status := "DIRECTLY_LOCKED"
              status_params := [], calc_time := none }
          else
            { simple_status := "active", detailed_status := "ACTIVATED"
              status_params := [], calc_time := none }
      | .error _ =>
          { simple_status := "unknown", detailed_status := "error: " ++ e
            status_params := [], calc_time := none }

/-- Filter built by `search_users_by_name` (src/server.py lines 269-274). -/
def searchUsersByNameFilter (name : String) : String :=
  if name.data.contains '*' then
    "(|(uid=" ++ name ++ ")(cn=" ++ name ++ ")(givenName=" ++ name ++
      ")(sn=" ++ name ++ ")(displayName=" ++ name ++ ")(mail=" ++ name ++ "))"
  else
    "(|(uid=*" ++ name ++ "*)(cn=*" ++ name ++ "*)(givenName=*" ++ name ++
      "*)(sn=*" ++ name ++ "*)(displayName=*" ++ name ++ "*)(mail=*" ++ name ++ "*))"

/-- Filter built by `search_users_by_attribute` (src/server.py lines 602-605). -/
def searchUsersByAttributeFilter (attr value : String) : String :=
  if value.data.contains '*' then
    "(" ++ attr ++ "=" ++ value ++ ")"
  else
    "(" ++ attr ++ "=*" ++ value ++ "*)"

/-- Spec-side vocabulary: a single equality predicate `(attr=value)`. -/
def mkPredicate (attr value : String) : String :=
  "(" ++ attr ++ "=" ++ value ++ ")"

/-- Spec-side vocabulary: OR-combination of a list of predicates. -/
def orCombine (preds : List String) : String :=
  "(|" ++ String.join preds ++ ")"

/-- The fixed attribute set searched by name, in source order. -/
def nameSearchAttributes : List String :=
  ["uid", "cn", "givenName", "sn", "displayName", "mail"]

/-- Spec-side restatement of the name-search filter: one predicate per
attribute of the fixed set, OR-combined; literal value when the name holds
a wildcard, `*name*` otherwise. -/
def nameFilterSpec (name : String) : String :=
  orCombine (nameSearchAttributes.map (fun a =>
    if name.data.contains '*' then mkPredicate a name
    else mkPredicate a ("*" ++ name ++ "*")))

/-- Spec-side restatement of the attribute-search filter. -/
def attrFilterSpec (attr value : String) : String :=
  if value.data.contains '*' then mkPredicate attr value
  else mkPredicate attr ("*" ++ value ++ "*")

/-- One raw entry yielded by `users.list()` / `users.filter(...)`: its DN,
the outcome of the per-entry `get_all_attrs_json` + `json.loads` step (which
may raise), and the environment of its `_get_user_status` call. -/
structure RawUser where
  dn : String
  fetchAttrs : Except String (List (String × List String))
  statusEnv : StatusQueryEnv

/-- A normalized entry as appended to `results`: the DN, the attribute map,
and the `computed_status` block injected under `attrs`. -/
structure UserItem where
  dn : String
  attrs : List (String × List String)
  computed_status : AccountStatus
deriving Repr, DecidableEq

/-- The per-entry body shared by every listing loop (fetch attrs as JSON,
parse, attach `_get_user_status` output); the status call itself never
raises, so the only failure point is the attribute fetch. -/
def processUser (u : RawUser) : Except String UserItem :=
  match u.fetchAttrs with
  | .error e => .error e
  | .ok attrs =>
      .ok { dn := u.dn, attrs := attrs, computed_status := getUserStatus u.statusEnv }

/-- The collection loop of `list_all_users` / `search_users_by_name` /
`search_users_by_attribute` (src/server.py lines 192-217): stop once
`count >= limit`, append on success and increment `count`, skip entries
whose processing raises. -/
def collectUsers (limit : Int) : List RawUser → Int → List UserItem
  | [], _ => []
  | u :: us, count =>
      if count ≥ limit then []
      else
        match processUser u with
        | .ok item => item :: collectUsers limit us (count + 1)
        | .error _ => collectUsers limit us count

/-- The collection loop of `list_active_users` / `list_locked_users`
(src/server.py lines 436-465): additionally counts every inspected entry in
`processed` and keeps only entries whose computed `simple_status` equals
`wanted`. Returns (results, processed). -/
def collectStatusUsers (wanted : String) (limit : Int) :
    List RawUser → Int → Int → List UserItem × Int
  | [], _, processed => ([], processed)
  | u :: us, count, processed =>
      if count ≥ limit then ([], processed)
      else
        match processUser u with
        | .ok item =>
            if item.computed_status.simple_status = wanted then
              let r := collectStatusUsers wanted limit us (count + 1) (processed + 1)
              (item :: r.1, r.2)
            else collectStatusUsers wanted limit us count (processed + 1)
        | .error _ => collectStatusUsers wanted limit us count (processed + 1)

/-- Success payload of `list_all_users`. -/
structure UserListResponse where
  total_returned : Nat
  limit_applied : Int
  items : List UserItem
deriving Repr, DecidableEq

/-- Success payload of `search_users_by_name`. -/
structure UserSearchResponse where
  search_term : String
  filter_used : String
  total_returned : Nat
  limit_applied : Int
  items : List UserItem
deriving Repr, DecidableEq

/-- Success payload of `search_users_by_attribute`. -/
structure AttrSearchResponse where
  attr : String
  value : String
  filter_used : String
  total_returned : Nat
  limit_applied : Int
  items : List UserItem
deriving Repr, DecidableEq

/-- Success payload of `list_active_users` / `list_locked_users`. -/
structure StatusUsersResponse where
  total_processed : Int
  users_found : Nat
  limit_applied : Int
  items : List UserItem
deriving Repr, DecidableEq

/-- Success payload of `get_user_details`. -/
structure UserDetailsResponse where
  username : String
  user : UserItem
deriving Repr, DecidableEq

/-- A `CallToolResult`: either a structured success payload or an
error-flagged result (`isError=True`) carrying a message. -/
inductive ToolResult (α : Type) where
  | ok (data : α)
  | err (message : String)
deriving Repr, DecidableEq

/-- The `isError` flag of a `CallToolResult`. -/
def ToolResult.isErrorFlag {α : Type} : ToolResult α → Bool
  | .ok _ => false
  | .err _ => true

/-- What a tool call produced, plus the connection lifecycle facts:
whether `ds.open()` succeeded, and whether `ds.unbind_s()` ran before
the return. -/
structure ToolOutcome (α : Type) where
  result : ToolResult α
  opened : Bool
  closed : Bool
deriving Repr, DecidableEq

/-- Environment of one listing/search tool call: the outcome of
`get_ldap_connection()` and the outcome of the entry enumeration
(`users.list()` or `users.filter(search_filter)`), each of which may
raise. -/
structure ToolEnv where
  connection : Except String Unit
  entries : Except String (List RawUser)

/-- `list_all_users` (src/server.py lines 174-249). A connection failure is
caught by the outer handler with nothing opened; an enumeration failure is
caught by the outer handler after the open, and no `unbind_s` runs on that
path; on success `unbind_s` runs before the response is built. -/
def list_all_users (env : ToolEnv) (limit : Int) : ToolOutcome UserListResponse :=
  match env.connection with
  | .error e =>
      ⟨.err ("Error listing users: " ++ e), false, false⟩
  | .ok _ =>
      match env.entries with
      | .error e =>
          ⟨.err ("Error listing users: " ++ e), true, false⟩
      | .ok users =>
          let results := collectUsers limit users 0
          ⟨.ok { total_returned := results.length, limit_applied := limit, items := results },
            true, true⟩

/-- `search_users_by_name` (src/server.py lines 252-338); `env.entries`
models the directory response to the composed filter, including its
rejection (`users.filter` raising) as `.error`. -/
def search_users_by_name (env : ToolEnv) (name : String) (limit : Int) :
    ToolOutcome UserSearchResponse :=
  match env.connection with
  | .error e =>
      ⟨.err ("Error searching users by name \x27" ++ name ++ "\x27: " ++ e), false, false⟩
  | .ok _ =>
      match env.entries with
      | .error e =>
          ⟨.err ("Error searching users by name \x27" ++ name ++ "\x27: " ++ e), true, false⟩
      | .ok users =>
          let results := collectUsers limit users 0
          ⟨.ok { search_term := name, filter_used := searchUsersByNameFilter name,
                 total_returned := results.length, limit_applied := limit, items := results },
            true, true⟩

/-- `search_users_by_attribute` (src/server.py lines 584-670). -/
def search_users_by_attribute (env : ToolEnv) (attr value : String) (limit : Int) :
    ToolOutcome AttrSearchResponse :=
  match env.connection with
  | .error e =>
      ⟨.err ("Error searching users by attribute " ++ attr ++ "=" ++ value ++ ": " ++ e),
        false, false⟩
  | .ok _ =>
      match env.entries with
      | .error e =>
          ⟨.err ("Error searching users by attribute " ++ attr ++ "=" ++ value ++ ": " ++ e),
            true, false⟩
      | .ok users =>
          let results := collectUsers limit users 0
          ⟨.ok { attr := attr, value := value,
                 filter_used := searchUsersByAttributeFilter attr value,
                 total_returned := results.length, limit_applied := limit, items := results },
            true, true⟩

/-- `list_active_users` (src/server.py lines 418-498). -/
def list_active_users (env : ToolEnv) (limit : Int) : ToolOutcome StatusUsersResponse :=
  match env.connection with
  | .error e =>
      ⟨.err ("Error listing active users: " ++ e), false, false⟩
  | .ok _ =>
      match env.entries with
      | .error e =>
          ⟨.err ("Error listing active users: " ++ e), true, false⟩
      | .ok users =>
          let r := collectStatusUsers "active" limit users 0 0
          ⟨.ok { total_processed := r.2, users_found := r.1.length,
                 limit_applied := limit, items := r.1 },
            true, true⟩

/-- `list_locked_users` (src/server.py lines 501-581). -/
def list_locked_users (env : ToolEnv) (limit : Int) : ToolOutcome StatusUsersResponse :=
  match env.connection with
  | .error e =>
      ⟨.err ("Error listing locked users: " ++ e), false, false⟩
  | .ok _ =>
      match env.entries with
      | .error e =>
          ⟨.err ("Error listing locked users: " ++ e), true, false⟩
      | .ok users =>
          let r := collectStatusUsers "locked" limit users 0 0
          ⟨.ok { total_processed := r.2, users_found := r.1.length,
                 limit_applied := limit, items := r.1 },
            true, true⟩

/-- Environment of a `get_user_details` call: the connection outcome and
the outcome of `users.get(username)` (the inner `try`, which may raise a
not-found error). -/
structure DetailsEnv where
  connection : Except String Unit
  userFetch : Except String RawUser

/-- `get_user_details` (src/server.py lines 341-415): the inner not-found
handler runs `unbind_s` before returning its error; the outer handler
(connection failure) has nothing to close. -/
def get_user_details (env : DetailsEnv) (username : String) :
    ToolOutcome UserDetailsResponse :=
  match env.connection with
  | .error e =>
      ⟨.err ("Error getting user details for \x27" ++ username ++ "\x27: " ++ e), false, false⟩
  | .ok _ =>
      match env.userFetch with
      | .error e =>
          ⟨.err ("User \x27" ++ username ++ "\x27 not found: " ++ e), true, true⟩
      | .ok u =>
          match processUser u with
          | .error e =>
              ⟨.err ("User \x27" ++ username ++ "\x27 not found: " ++ e), true, true⟩
          | .ok item =>
              ⟨.ok { username := username, user := item }, true, true⟩

/-- Spec-side reading of the fallback lock condition: the raw
`nsAccountLock` attribute is present, non-empty, and its first value is
case-insensitively equal to `true`. -/
def LockAttrTrue (attrs : List (String × List String)) : Prop :=
  ∃ v vs, lookupAttr attrs "nsAccountLock" = some (v :: vs) ∧ v.toLower = "true"

/-- Spec-side reading of a structured tool response: either a success
payload, or an error-flagged result carrying a non-empty human-readable
message; never a propagated exception (which the embedding would have to
model as a value outside `ToolResult`). -/
def StructuredResult {α : Type} (r : ToolResult α) : Prop :=
  (∃ d, r = ToolResult.ok d) ∨ ∃ m, r = ToolResult.err m ∧ m ≠ ""

/-- A sample entry whose primary status query yields `ACTIVATED`. -/
def sampleActiveUser : RawUser :=
  { dn := "uid=alice,ou=people,dc=example,dc=com"
    fetchAttrs := .ok [("uid", ["alice"])]
    statusEnv := ⟨.ok ⟨"ACTIVATED", [], none⟩, .ok []⟩ }

/-- A sample entry whose primary status query yields `DIRECTLY_LOCKED`. -/
def sampleLockedUser : RawUser :=
  { dn := "uid=bob,ou=people,dc=example,dc=com"
    fetchAttrs := .ok [("uid", ["bob"])]
    statusEnv := ⟨.ok ⟨"DIRECTLY_LOCKED", [], none⟩, .ok []⟩ }

/-- A directory with one active and one locked user, reachable connection. -/
def sampleEnv : ToolEnv :=
  ⟨.ok (), .ok [sampleActiveUser, sampleLockedUser]⟩

/-- The normalized item produced for `sampleActiveUser`. -/
def aliceItem : UserItem :=
  { dn := "uid=alice,ou=people,dc=example,dc=com"
    attrs := [("uid", ["alice"])]
    computed_status := ⟨"active", "ACTIVATED", [], none⟩ }

/-- The normalized item produced for `sampleLockedUser`. -/
def bobItem : UserItem :=
  { dn := "uid=bob,ou=people,dc=example,dc=com"
    attrs := [("uid", ["bob"])]
    computed_status := ⟨"locked", "DIRECTLY_LOCKED", [], none⟩ }

theorem nsAccountLockTrue_iff (attrs : List (String × List String)) :
    nsAccountLockTrue attrs = true ↔ LockAttrTrue attrs := by
  unfold nsAccountLockTrue LockAttrTrue
  cases hl : lookupAttr attrs "nsAccountLock" with
  | none => simp
  | some vs =>
      cases vs with
      | nil => simp
      | cons v t =>
          simp only [decide_eq_true_eq]
          constructor
          · intro hv
            exact ⟨v, t, rfl, hv⟩
          · rintro ⟨v2, t2, hs, hv⟩
            obtain ⟨rfl, rfl⟩ : v2 = v ∧ t2 = t := by
              have := Option.some.inj hs
              exact ⟨(List.cons.inj this.symm).1, (List.cons.inj this.symm).2⟩
            exact hv

theorem data_append_ne_empty (a b : String) (h : a.data ≠ []) : a ++ b ≠ "" := by
  intro hc
  have h2 : a.data ++ b.data = ([] : List Char) := by
    have := congrArg String.data hc
    rw [String.data_append] at this
    exact this
  exact h (List.append_eq_nil.mp h2).1

theorem data_append_left_ne (a b : String) (h : a.data ≠ []) : (a ++ b).data ≠ [] := by
  rw [String.data_append]
  intro hc
  exact h (List.append_eq_nil.mp hc).1

theorem collectUsers_stop (limit : Int) (users : List RawUser) (count : Int)
    (h : limit ≤ count) : collectUsers limit users count = [] := by
  cases users with
  | nil => simp [collectUsers]
  | cons u us => simp [collectUsers, ge_iff_le, h]

theorem collectUsers_len_aux (limit : Int) :
    ∀ (users : List RawUser) (count : Int), count < limit →
      count + ((collectUsers limit users count).length : Int) ≤ limit := by
  intro users
  induction users with
  | nil =>
      intro count h
      simp [collectUsers]
      omega
  | cons u us ih =>
      intro count h
      have hnge : ¬ (count ≥ limit) := not_le.mpr h
      simp only [collectUsers, hnge, if_false]
      cases hp : processUser u with
      | ok item =>
          simp only [List.length_cons]
          by_cases h2 : count + 1 < limit
          · have h3 := ih (count + 1) h2
            push_cast at h3 ⊢
            omega
          · have hstop : collectUsers limit us (count + 1) = [] :=
              collectUsers_stop limit us (count + 1) (by omega)
            rw [hstop]
            simp
            omega
      | error e =>
          exact ih count h

theorem collectUsers_len_of_nonneg (limit : Int) (users : List RawUser)
    (h : 0 ≤ limit) : ((collectUsers limit users 0).length : Int) ≤ limit := by
  rcases eq_or_lt_of_le h with h0 | h0
  · rw [collectUsers_stop limit users 0 (le_of_eq h0.symm)]
    simp
    omega
  · have := collectUsers_len_aux limit users 0 h0
    omega

theorem collectStatusUsers_stop (wanted : String) (limit : Int) (users : List RawUser)
    (count processed : Int) (h : limit ≤ count) :
    collectStatusUsers wanted limit users count processed = ([], processed) := by
  cases users with
  | nil => simp [collectStatusUsers]
  | cons u us => simp [collectStatusUsers, ge_iff_le, h]

theorem collectStatusUsers_len_aux (wanted : String) (limit : Int) :
    ∀ (users : List RawUser) (count processed : Int), count < limit →
      count + (((collectStatusUsers wanted limit users count processed).1).length : Int) ≤ limit := by
  intro users
  induction users with
  | nil =>
      intro count processed h
      simp [collectStatusUsers]
      omega
  | cons u us ih =>
      intro count processed h
      have hnge : ¬ (count ≥ limit) := not_le.mpr h
      simp only [collectStatusUsers, hnge, if_false]
      cases hp : processUser u with
      | ok item =>
          by_cases hw : item.computed_status.simple_status = wanted
          · simp only [hw, if_true]
            simp only [List.length_cons]
            by_cases h2 : count + 1 < limit
            · have h3 := ih (count + 1) (processed + 1) h2
              push_cast at h3 ⊢
              omega
            · have hstop := collectStatusUsers_stop wanted limit us (count + 1) (processed + 1)
                (by omega)
              rw [hstop]
              simp
              omega
          · simp only [hw, if_false]
            exact ih count (processed + 1) h
      | error e =>
          exact ih count (processed + 1) h

theorem collectStatusUsers_len_of_nonneg (wanted : String) (limit : Int)
    (users : List RawUser) (h : 0 ≤ limit) :
    (((collectStatusUsers wanted limit users 0 0).1).length : Int) ≤ limit := by
  rcases eq_or_lt_of_le h with h0 | h0
  · rw [collectStatusUsers_stop wanted limit users 0 0 (le_of_eq h0.symm)]
    simp
    omega
  · have := collectStatusUsers_len_aux wanted limit users 0 0 h0
    omega

theorem collectStatusUsers_mem (wanted : String) (limit : Int) :
    ∀ (users : List RawUser) (count processed : Int) (x : UserItem),
      x ∈ (collectStatusUsers wanted limit users count processed).1 →
      x.computed_status.simple_status = wanted := by
  intro users
  induction users with
  | nil =>
      intro count processed x hx
      simp [collectStatusUsers] at hx
  | cons u us ih =>
      intro count processed x hx
      by_cases hc : count ≥ limit
      · simp [collectStatusUsers, hc] at hx
      · simp only [collectStatusUsers, hc, if_false] at hx
        cases hp : processUser u with
        | ok item =>
            rw [hp] at hx
            by_cases hw : item.computed_status.simple_status = wanted
            · simp only [hw, if_true] at hx
              rcases List.mem_cons.mp hx with rfl | hx2
              · exact hw
              · exact ih _ _ x hx2
            · simp only [hw, if_false] at hx
              exact ih _ _ x hx
        | error e =>
            rw [hp] at hx
            exact ih _ _ x hx

/-- Claim C1: when the primary status query succeeds, the classifier maps
the raw state name to `simple_status` exactly as specified (DIRECTLY_LOCKED
and INDIRECTLY_LOCKED to locked, INACTIVITY_LIMIT_EXCEEDED to inactive,
ACTIVATED to active, anything else to unknown), and `detailed_status`
equals the raw state name. -/
theorem claim_C1_state_mapping (env : StatusQueryEnv) (sd : StatusData)
    (h : env.primary = Except.ok sd) :
    ((sd.state_name = "DIRECTLY_LOCKED" ∨ sd.state_name = "INDIRECTLY_LOCKED") →
      (getUserStatus env).simple_status = "locked") ∧
    (sd.state_name = "INACTIVITY_LIMIT_EXCEEDED" →
      (getUserStatus env).simple_status = "inactive") ∧
    (sd.state_name = "ACTIVATED" → (getUserStatus env).simple_status = "active") ∧
    (sd.state_name ≠ "DIRECTLY_LOCKED" → sd.state_name ≠ "INDIRECTLY_LOCKED" →
      sd.state_name ≠ "INACTIVITY_LIMIT_EXCEEDED" → sd.state_name ≠ "ACTIVATED" →
      (getUserStatus env).simple_status = "unknown") ∧
    (getUserStatus env).detailed_status = sd.state_name := by
  have hg : getUserStatus env =
      { simple_status := simpleStatusOfState sd.state_name
        detailed_status := sd.state_name
        status_params := sd.params
        calc_time := sd.calc_time } := by
    simp [getUserStatus, h]
  refine ⟨?_, ?_, ?_, ?_, ?_⟩
  · rintro (h1 | h1) <;> rw [hg] <;> simp [simpleStatusOfState, h1]
  · intro h1
    rw [hg, h1]
    simp [simpleStatusOfState]
  · intro h1
    rw [hg, h1]
    simp [simpleStatusOfState]
  · intro h1 h2 h3 h4
    rw [hg]
    simp [simpleStatusOfState, h1, h2, h3, h4]
  · rw [hg]

/-- Witness for C1 at the concrete state `ACTIVATED`. -/
theorem claim_C1_witness :
    (getUserStatus ⟨.ok ⟨"ACTIVATED", [], none⟩, .ok []⟩).simple_status = "active" :=
  (claim_C1_state_mapping ⟨.ok ⟨"ACTIVATED", [], none⟩, .ok []⟩
    ⟨"ACTIVATED", [], none⟩ rfl).2.2.1 rfl

/-- Claim C2: the name-search filter is exactly the OR-combination of one
predicate per attribute of the fixed set {uid, cn, givenName, sn,
displayName, mail}; the predicate uses the literal value when the name
contains a `*`, and wraps the value as `*name*` otherwise. -/
theorem claim_C2_name_filter (name : String) :
    searchUsersByNameFilter name = nameFilterSpec name := by
  cases h : name.data.contains '*' <;>
    simp only [searchUsersByNameFilter, nameFilterSpec, nameSearchAttributes, mkPredicate,
      orCombine, String.join, List.map, List.foldl, h, if_true, if_false,
      Bool.false_eq_true] <;>
    (apply String.ext) <;>
    simp only [String.data_append, List.append_assoc, List.nil_append,
      show ("".data = ([] : List Char)) from rfl] <;>
    with_unfolding_all rfl

/-- Claim C3: the attribute-search filter is the single predicate
`(attribute=value)` verbatim when the value contains `*`, and
`(attribute=*value*)` otherwise. -/
theorem claim_C3_attr_filter (attr value : String) :
    searchUsersByAttributeFilter attr value = attrFilterSpec attr value := by
  cases h : value.data.contains '*' <;>
    simp only [searchUsersByAttributeFilter, attrFilterSpec, mkPredicate, h, if_true,
      if_false, Bool.false_eq_true] <;>
    (apply String.ext) <;>
    simp only [String.data_append, List.append_assoc] <;>
    with_unfolding_all rfl

/-- Counterexample to claim C4 as stated: at `limit = -1` the call succeeds
with an empty items list, but `len(items) <= limit_applied` reads `0 <= -1`,
which is false, because `limit_applied` echoes the negative limit. -/
theorem claim_C4_counterexample :
    list_all_users ⟨.ok (), .ok []⟩ (-1) =
      ⟨.ok { total_returned := 0, limit_applied := -1, items := [] }, true, true⟩ ∧
    ¬ ((([] : List UserItem).length : Int) ≤ (-1 : Int)) :=
  ⟨rfl, by decide⟩

/-- Claim C4 as amended: for every success response of a listing/search
tool, the reported count (`total_returned`, or the found-count) equals
`len(items)` for every limit, and `len(items) <= limit_applied` holds
whenever the limit is nonnegative. -/
theorem claim_C4_amended (env : ToolEnv) (limit : Int) :
    (∀ r, (list_all_users env limit).result = ToolResult.ok r →
      r.total_returned = r.items.length ∧
      (0 ≤ limit → (r.items.length : Int) ≤ r.limit_applied)) ∧
    (∀ name r, (search_users_by_name env name limit).result = ToolResult.ok r →
      r.total_returned = r.items.length ∧
      (0 ≤ limit → (r.items.length : Int) ≤ r.limit_applied)) ∧
    (∀ attr value r, (search_users_by_attribute env attr value limit).result = ToolResult.ok r →
      r.total_returned = r.items.length ∧
      (0 ≤ limit → (r.items.length : Int) ≤ r.limit_applied)) ∧
    (∀ r, (list_active_users env limit).result = ToolResult.ok r →
      r.users_found = r.items.length ∧
      (0 ≤ limit → (r.items.length : Int) ≤ r.limit_applied)) ∧
    (∀ r, (list_locked_users env limit).result = ToolResult.ok r →
      r.users_found = r.items.length ∧
      (0 ≤ limit → (r.items.length : Int) ≤ r.limit_applied)) := by
  rcases hc : env.connection with ce | cu
  · refine ⟨?_, ?_, ?_, ?_, ?_⟩ <;> intros <;>
      simp_all [list_all_users, search_users_by_name, search_users_by_attribute,
        list_active_users, list_locked_users, hc]
  · rcases he : env.entries with ee | users
    · refine ⟨?_, ?_, ?_, ?_, ?_⟩ <;> intros <;>
        simp_all [list_all_users, search_users_by_name, search_users_by_attribute,
          list_active_users, list_locked_users, hc, he]
    · refine ⟨?_, ?_, ?_, ?_, ?_⟩
      · intro r h
        simp only [list_all_users, hc, he, ToolResult.ok.injEq] at h
        subst h
        exact ⟨rfl, fun h0 => collectUsers_len_of_nonneg limit users h0⟩
      · intro name r h
        simp only [search_users_by_name, hc, he, ToolResult.ok.injEq] at h
        subst h
        exact ⟨rfl, fun h0 => collectUsers_len_of_nonneg limit users h0⟩
      · intro attr value r h
        simp only [search_users_by_attribute, hc, he, ToolResult.ok.injEq] at h
        subst h
        exact ⟨rfl, fun h0 => collectUsers_len_of_nonneg limit users h0⟩
      · intro r h
        simp only [list_active_users, hc, he, ToolResult.ok.injEq] at h
        subst h
        exact ⟨rfl, fun h0 => collectStatusUsers_len_of_nonneg "active" limit users h0⟩
      · intro r h
        simp only [list_locked_users, hc, he, ToolResult.ok.injEq] at h
        subst h
        exact ⟨rfl, fun h0 => collectStatusUsers_len_of_nonneg "locked" limit users h0⟩

/-- Witness for the amended C4 at a concrete successful call. -/
theorem claim_C4_witness :
    (0 : Nat) = ([] : List UserItem).length ∧
    (0 ≤ (50 : Int) → ((([] : List UserItem).length : Int) ≤ (50 : Int))) :=
  (claim_C4_amended ⟨.ok (), .ok []⟩ 50).1
    { total_returned := 0, limit_applied := 50, items := [] } rfl

/-- Claim C5: every item of a successful `list_active_users` response has
`computed_status.simple_status = "active"`, every item of a successful
`list_locked_users` response has `"locked"`, and over the same directory
contents the two result sets are disjoint. -/
theorem claim_C5_status_filtering (env : ToolEnv) (la ll : Int)
    (ra rl : StatusUsersResponse)
    (ha : (list_active_users env la).result = ToolResult.ok ra)
    (hl : (list_locked_users env ll).result = ToolResult.ok rl) :
    (∀ x ∈ ra.items, x.computed_status.simple_status = "active") ∧
    (∀ x ∈ rl.items, x.computed_status.simple_status = "locked") ∧
    (∀ x ∈ ra.items, x ∉ rl.items) := by
  rcases hc : env.connection with ce | cu
  · simp [list_active_users, hc] at ha
  · rcases he : env.entries with ee | users
    · simp [list_active_users, hc, he] at ha
    · simp only [list_active_users, hc, he, ToolResult.ok.injEq] at ha
      simp only [list_locked_users, hc, he, ToolResult.ok.injEq] at hl
      subst ha
      subst hl
      refine ⟨?_, ?_, ?_⟩
      · intro x hx
        exact collectStatusUsers_mem "active" la users 0 0 x hx
      · intro x hx
        exact collectStatusUsers_mem "locked" ll users 0 0 x hx
      · intro x hx hx2
        have h1 := collectStatusUsers_mem "active" la users 0 0 x hx
        have h2 := collectStatusUsers_mem "locked" ll users 0 0 x hx2
        rw [h1] at h2
        exact absurd h2 (by decide)

/-- Witness for C5: in the sample directory the active listing holds
exactly Alice and the locked listing exactly Bob, so Alice is not in the
locked result set. -/
theorem claim_C5_witness : aliceItem ∉ [bobItem] :=
  (claim_C5_status_filtering sampleEnv 50 50
    { total_processed := 2, users_found := 1, limit_applied := 50, items := [aliceItem] }
    { total_processed := 2, users_found := 1, limit_applied := 50, items := [bobItem] }
    (by decide) (by decide)).2.2 aliceItem (by simp)

/-- Claim C6: when the primary status path raises, the fallback classifies
as locked/DIRECTLY_LOCKED exactly when the raw `nsAccountLock` attribute is
present, non-empty, and case-insensitively `true`, and as active/ACTIVATED
otherwise; when the fallback raises too, the classifier returns `unknown`
with the primary error text embedded; the classifier is a total function,
so it never raises to its caller. -/
theorem claim_C6_fallback (env : StatusQueryEnv) (e : String)
    (h : env.primary = Except.error e) :
    (∀ attrs, env.fallbackAttrs = Except.ok attrs →
      (LockAttrTrue attrs →
        getUserStatus env = ⟨"locked", "DIRECTLY_LOCKED", [], none⟩) ∧
      (¬ LockAttrTrue attrs →
        getUserStatus env = ⟨"active", "ACTIVATED", [], none⟩)) ∧
    (∀ e2, env.fallbackAttrs = Except.error e2 →
      getUserStatus env = ⟨"unknown", "error: " ++ e, [], none⟩) := by
  refine ⟨?_, ?_⟩
  · intro attrs hA
    constructor
    · intro hlock
      have hb : nsAccountLockTrue attrs = true := (nsAccountLockTrue_iff attrs).mpr hlock
      simp [getUserStatus, h, hA, hb]
    · intro hn
      have hb : nsAccountLockTrue attrs = false := by
        cases hbv : nsAccountLockTrue attrs
        · rfl
        · exact absurd ((nsAccountLockTrue_iff attrs).mp hbv) hn
      simp [getUserStatus, h, hA, hb]
  · intro e2 hE
    simp [getUserStatus, h, hE]

/-- Witness for C6 on the double-failure path. -/
theorem claim_C6_witness :
    getUserStatus ⟨.error "boom", .error "again"⟩ =
      ⟨"unknown", "error: " ++ "boom", [], none⟩ :=
  (claim_C6_fallback ⟨.error "boom", .error "again"⟩ "boom" rfl).2 "again" rfl

/-- Counterexample to claim C7 as stated: when the underlying search call
rejects the composed filter (`users.filter` raising), `search_users_by_name`
returns an error-flagged response via its exception handler, not a success
response with an unfiltered listing. -/
theorem claim_C7_counterexample :
    (search_users_by_name ⟨.ok (), .error "Bad search filter"⟩ "(bad" 50).result.isErrorFlag
      = true ∧
    (search_users_by_name ⟨.ok (), .error "Bad search filter"⟩ "(bad" 50).result =
      .err ("Error searching users by name \x27" ++ "(bad" ++ "\x27: " ++ "Bad search filter") :=
  ⟨rfl, rfl⟩

/-- Claim C7 as amended: a filter rejected by the underlying search call
makes the search tools return an error-flagged response carrying the
exception message; no degradation to an unfiltered listing occurs. -/
theorem claim_C7_amended (env : ToolEnv) (name attr value : String) (limit : Int)
    (e : String) (hc : env.connection = Except.ok ())
    (he : env.entries = Except.error e) :
    (search_users_by_name env name limit).result =
      .err ("Error searching users by name \x27" ++ name ++ "\x27: " ++ e) ∧
    (search_users_by_name env name limit).result.isErrorFlag = true ∧
    (search_users_by_attribute env attr value limit).result =
      .err ("Error searching users by attribute " ++ attr ++ "=" ++ value ++ ": " ++ e) ∧
    (search_users_by_attribute env attr value limit).result.isErrorFlag = true := by
  refine ⟨?_, ?_, ?_, ?_⟩ <;>
    simp [search_users_by_name, search_users_by_attribute, ToolResult.isErrorFlag, hc, he]

/-- Witness for the amended C7. -/
theorem claim_C7_witness :
    (search_users_by_name ⟨.ok (), .error "flt"⟩ "ab" 10).result =
      .err ("Error searching users by name \x27" ++ "ab" ++ "\x27: " ++ "flt") :=
  (claim_C7_amended ⟨.ok (), .error "flt"⟩ "ab" "x" "y" 10 "flt" rfl rfl).1

/-- Claim C8: every modelled tool call yields a structured result — either
a success payload or an error-flagged result with a non-empty message — for
every environment, i.e. no raw exception reaches the caller. -/
theorem claim_C8_structured_responses :
    (∀ env limit, StructuredResult (list_all_users env limit).result) ∧
    (∀ env name limit, StructuredResult (search_users_by_name env name limit).result) ∧
    (∀ env attr value limit,
      StructuredResult (search_users_by_attribute env attr value limit).result) ∧
    (∀ env limit, StructuredResult (list_active_users env limit).result) ∧
    (∀ env limit, StructuredResult (list_locked_users env limit).result) ∧
    (∀ denv username, StructuredResult (get_user_details denv username).result) := by
  refine ⟨?_, ?_, ?_, ?_, ?_, ?_⟩
  · intro env limit
    rcases hc : env.connection with ce | cu
    · simp only [StructuredResult, list_all_users, hc]
      exact Or.inr ⟨_, rfl, data_append_ne_empty _ _ (by decide)⟩
    · rcases he : env.entries with ee | users
      · simp only [StructuredResult, list_all_users, hc, he]
        exact Or.inr ⟨_, rfl, data_append_ne_empty _ _ (by decide)⟩
      · simp only [StructuredResult, list_all_users, hc, he]
        exact Or.inl ⟨_, rfl⟩
  · intro env name limit
    rcases hc : env.connection with ce | cu
    · simp only [StructuredResult, search_users_by_name, hc]
      exact Or.inr ⟨_, rfl,
        data_append_ne_empty _ _ (data_append_left_ne _ _ (data_append_left_ne _ _
          (by decide)))⟩
    · rcases he : env.entries with ee | users
      · simp only [StructuredResult, search_users_by_name, hc, he]
        exact Or.inr ⟨_, rfl,
          data_append_ne_empty _ _ (data_append_left_ne _ _ (data_append_left_ne _ _
            (by decide)))⟩
      · simp only [StructuredResult, search_users_by_name, hc, he]
        exact Or.inl ⟨_, rfl⟩
  · intro env attr value limit
    rcases hc : env.connection with ce | cu
    · simp only [StructuredResult, search_users_by_attribute, hc]
      exact Or.inr ⟨_, rfl,
        data_append_ne_empty _ _ (data_append_left_ne _ _ (data_append_left_ne _ _
          (data_append_left_ne _ _ (data_append_left_ne _ _ (by decide)))))⟩
    · rcases he : env.entries with ee | users
      · simp only [StructuredResult, search_users_by_attribute, hc, he]
        exact Or.inr ⟨_, rfl,
          data_append_ne_empty _ _ (data_append_left_ne _ _ (data_append_left_ne _ _
            (data_append_left_ne _ _ (data_append_left_ne _ _ (by decide)))))⟩
      · simp only [StructuredResult, search_users_by_attribute, hc, he]
        exact Or.inl ⟨_, rfl⟩
  · intro env limit
    rcases hc : env.connection with ce | cu
    · simp only [StructuredResult, list_active_users, hc]
      exact Or.inr ⟨_, rfl, data_append_ne_empty _ _ (by decide)⟩
    · rcases he : env.entries with ee | users
      · simp only [StructuredResult, list_active_users, hc, he]
        exact Or.inr ⟨_, rfl, data_append_ne_empty _ _ (by decide)⟩
      · simp only [StructuredResult, list_active_users, hc, he]
        exact Or.inl ⟨_, rfl⟩
  · intro env limit
    rcases hc : env.connection with ce | cu
    · simp only [StructuredResult, list_locked_users, hc]
      exact Or.inr ⟨_, rfl, data_append_ne_empty _ _ (by decide)⟩
    · rcases he : env.entries with ee | users
      · simp only [StructuredResult, list_locked_users, hc, he]
        exact Or.inr ⟨_, rfl, data_append_ne_empty _ _ (by decide)⟩
      · simp only [StructuredResult, list_locked_users, hc, he]
        exact Or.inl ⟨_, rfl⟩
  · intro denv username
    rcases hc : denv.connection with ce | cu
    · simp only [StructuredResult, get_user_details, hc]
      exact Or.inr ⟨_, rfl,
        data_append_ne_empty _ _ (data_append_left_ne _ _ (data_append_left_ne _ _
          (by decide)))⟩
    · rcases hf : denv.userFetch with fe | u
      · simp only [StructuredResult, get_user_details, hc, hf]
        exact Or.inr ⟨_, rfl,
          data_append_ne_empty _ _ (data_append_left_ne _ _ (data_append_left_ne _ _
            (by decide)))⟩
      · rcases hp : processUser u with pe | item
        · simp only [StructuredResult, get_user_details, hc, hf, hp]
          exact Or.inr ⟨_, rfl,
            data_append_ne_empty _ _ (data_append_left_ne _ _ (data_append_left_ne _ _
              (by decide)))⟩
        · simp only [StructuredResult, get_user_details, hc, hf, hp]
          exact Or.inl ⟨_, rfl⟩

/-- Counterexample to claim C9 as stated: with the connection open
succeeding and the entry enumeration raising, `list_all_users` returns its
error response without the connection having been closed. -/
theorem claim_C9_counterexample :
    (list_all_users ⟨.ok (), .error "server unavailable"⟩ 50).opened = true ∧
    (list_all_users ⟨.ok (), .error "server unavailable"⟩ 50).result.isErrorFlag = true ∧
    (list_all_users ⟨.ok (), .error "server unavailable"⟩ 50).closed = false :=
  ⟨rfl, rfl, rfl⟩

/-- Claim C9 as amended: the connection is closed before returning on the
success path of every listing/search tool and on both paths of
`get_user_details` after a successful open (including its not-found error
path); a connection-open failure skips the close; but an exception raised
between the open and the close (an enumeration failure) also returns
without closing. -/
theorem claim_C9_amended :
    (∀ env limit users name attr value, env.connection = Except.ok () →
      env.entries = Except.ok users →
      (list_all_users env limit).closed = true ∧
      (search_users_by_name env name limit).closed = true ∧
      (search_users_by_attribute env attr value limit).closed = true ∧
      (list_active_users env limit).closed = true ∧
      (list_locked_users env limit).closed = true) ∧
    (∀ denv username, denv.connection = Except.ok () →
      (get_user_details denv username).closed = true) ∧
    (∀ env limit ce, env.connection = Except.error ce →
      (list_all_users env limit).opened = false ∧
      (list_all_users env limit).closed = false) ∧
    (∀ env limit ee, env.connection = Except.ok () → env.entries = Except.error ee →
      (list_all_users env limit).opened = true ∧
      (list_all_users env limit).closed = false) := by
  refine ⟨?_, ?_, ?_, ?_⟩
  · intro env limit users name attr value hc he
    refine ⟨?_, ?_, ?_, ?_, ?_⟩ <;>
      simp [list_all_users, search_users_by_name, search_users_by_attribute,
        list_active_users, list_locked_users, hc, he]
  · intro denv username hc
    rcases hf : denv.userFetch with fe | u
    · simp [get_user_details, hc, hf]
    · rcases hp : processUser u with pe | item <;> simp [get_user_details, hc, hf, hp]
  · intro env limit ce hc
    constructor <;> simp [list_all_users, hc]
  · intro env limit ee hc he
    constructor <;> simp [list_all_users, hc, he]

/-- Witness for the amended C9: a successful call closes its connection. -/
theorem claim_C9_witness :
    (list_all_users ⟨.ok (), .ok []⟩ 50).closed = true :=
  (claim_C9_amended.1 ⟨.ok (), .ok []⟩ 50 [] "n" "a" "v" rfl rfl).1

/-- Claim C10: with `limit <= 0`, a successful connection and a successful
enumeration, every listing/search tool returns a success response with an
empty items list and zero counts, because the collection loop stops before
inspecting any entry (for the status-filtered tools even the processed
count stays 0). -/
theorem claim_C10_nonpositive_limit (env : ToolEnv) (limit : Int)
    (users : List RawUser) (hlim : limit ≤ 0)
    (hc : env.connection = Except.ok ()) (he : env.entries = Except.ok users) :
    list_all_users env limit =
      ⟨.ok { total_returned := 0, limit_applied := limit, items := [] }, true, true⟩ ∧
    (∀ name, search_users_by_name env name limit =
      ⟨.ok { search_term := name, filter_used := searchUsersByNameFilter name,
             total_returned := 0, limit_applied := limit, items := [] }, true, true⟩) ∧
    (∀ attr value, search_users_by_attribute env attr value limit =
      ⟨.ok { attr := attr, value := value,
             filter_used := searchUsersByAttributeFilter attr value,
             total_returned := 0, limit_applied := limit, items := [] }, true, true⟩) ∧
    list_active_users env limit =
      ⟨.ok { total_processed := 0, users_found := 0, limit_applied := limit,
             items := [] }, true, true⟩ ∧
    list_locked_users env limit =
      ⟨.ok { total_processed := 0, users_found := 0, limit_applied := limit,
             items := [] }, true, true⟩ := by
  have h1 : collectUsers limit users 0 = [] := collectUsers_stop limit users 0 hlim
  have h2 : collectStatusUsers "active" limit users 0 0 = ([], 0) :=
    collectStatusUsers_stop "active" limit users 0 0 hlim
  have h3 : collectStatusUsers "locked" limit users 0 0 = ([], 0) :=
    collectStatusUsers_stop "locked" limit users 0 0 hlim
  refine ⟨?_, ?_, ?_, ?_, ?_⟩ <;>
    intros <;>
    simp [list_all_users, search_users_by_name, search_users_by_attribute,
      list_active_users, list_locked_users, hc, he, h1, h2, h3]

/-- Witness for C10 at limit 0 over a non-empty directory. -/
theorem claim_C10_witness :
    list_all_users ⟨.ok (), .ok [sampleActiveUser]⟩ 0 =
      ⟨.ok { total_returned := 0, limit_applied := 0, items := [] }, true, true⟩ :=
  (claim_C10_nonpositive_limit ⟨.ok (), .ok [sampleActiveUser]⟩ 0 [sampleActiveUser]
    (by decide) rfl rfl).1

end DirKeeper
